import Mathlib

/-!
Verification of the MyTaskManager core: a shallow embedding of the server
controllers (ListController, DashboardController) and of the client pages
(Tasks index, Lists index) together with theorems about the embedded
operations. Machine rows are modelled as Lean structures, the database as a
Lean list of rows in storage order, and each controller action as a pure
function from caller identity and request input to a result and the new
database state.
-/

namespace TaskManager

/-- A row of the `lists` table (Eloquent model `TaskList`). -/
structure TaskList where
  id : Nat
  title : String
  description : Option String
  user_id : Nat
  created_at : Nat
  updated_at : Nat
deriving Repr, DecidableEq

/-- A row of the `tasks` table (Eloquent model `Task`); `lists_id` is the
foreign key to the owning list. -/
structure Task where
  id : Nat
  title : String
  description : Option String
  is_completed : Bool
  due_date : Option String
  lists_id : Nat
  created_at : Nat
  updated_at : Nat
deriving Repr, DecidableEq

/-- Request body for creating or updating a list: the fields the controllers
validate. Absent keys are `none`. -/
structure ListInput where
  title : Option String
  description : Option String
deriving Repr, DecidableEq

/-- A successfully validated create/update payload. -/
structure ValidatedList where
  title : String
  description : Option String
deriving Repr, DecidableEq

/-- The validation rules of ListController: title is required, a string of at
most 255 characters; description is nullable. On failure the per-field error
list names the offending field. -/
def validateListInput (inp : ListInput) : Except (List (String × String)) ValidatedList :=
  match inp.title with
  | none => .error [("title", "The title field is required.")]
  | some s =>
    if s = "" then .error [("title", "The title field is required.")]
    else if 255 < s.length then
      .error [("title", "The title field must not be greater than 255 characters.")]
    else .ok { title := s, description := inp.description }

/-- Outcome of ListController.store. -/
inductive StoreResult where
  | validationError (errors : List (String × String))
  | success (flash : String)
deriving Repr, DecidableEq

/-- Outcome of ListController.update. -/
inductive UpdateResult where
  | notFound
  | validationError (errors : List (String × String))
  | success (flash : String)
deriving Repr, DecidableEq

/-- Outcome of ListController.destroy. -/
inductive DestroyResult where
  | notFound
  | success (flash : String)
deriving Repr, DecidableEq

def StoreResult.isSuccess : StoreResult → Bool
  | .success _ => true
  | _ => false

/-- Flash message carried by a store outcome, when any. -/
def StoreResult.flash? : StoreResult → Option String
  | .success m => some m
  | _ => none

namespace ListController

/-- GET /lists: `TaskList::where(user_id, Auth::id())->get()` — the rows of
the caller, in storage order; the query carries no ordering clause. -/
def index (authId : Nat) (db : List TaskList) : List TaskList :=
  db.filter (fun l => l.user_id == authId)

/-- POST /lists: validate, then create a row whose `user_id` is the caller;
redirect with a single success flash. -/
def store (authId : Nat) (inp : ListInput) (now nextId : Nat)
    (db : List TaskList) : StoreResult × List TaskList :=
  match validateListInput inp with
  | .error errs => (.validationError errs, db)
  | .ok v =>
    (.success "List Created Successfully",
     db ++ [{ id := nextId, title := v.title, description := v.description,
              user_id := authId, created_at := now, updated_at := now }])

/-- Route model binding for `TaskList $list`: lookup by id alone (404 when
absent); no owner constraint is applied. -/
def findById (db : List TaskList) (listId : Nat) : Option TaskList :=
  db.find? (fun l => l.id == listId)

/-- PUT /lists/(id): route-bound lookup by id, validate, then
`$list->update($validated)` where the controller also sets
`user_id := Auth::id()`; Eloquent refreshes `updated_at`. -/
def update (authId : Nat) (listId : Nat) (inp : ListInput) (now : Nat)
    (db : List TaskList) : UpdateResult × List TaskList :=
  match findById db listId with
  | none => (.notFound, db)
  | some _ =>
    match validateListInput inp with
    | .error errs => (.validationError errs, db)
    | .ok v =>
      (.success "List updated successfully",
       db.map (fun l =>
         if l.id == listId then
           { l with title := v.title, description := v.description,
                    user_id := authId, updated_at := now }
         else l))

/-- DELETE /lists/(id): route-bound lookup by id, then `$list->delete()`;
the caller identity is never consulted. -/
def destroy (authId : Nat) (listId : Nat)
    (db : List TaskList) : DestroyResult × List TaskList :=
  match findById db listId with
  | none => (.notFound, db)
  | some _ => (.success "List Deleted Successfully", db.filter (fun l => !(l.id == listId)))

end ListController

/-- The ordering used by DashboardController queries:
`orderBy(updated_at, desc)->orderBy(created_at, desc)` — a comes no later
than b when a has the larger `updated_at`, with `created_at` descending as
tie-break. -/
def listBefore (a b : TaskList) : Prop :=
  b.updated_at < a.updated_at ∨ (a.updated_at = b.updated_at ∧ b.created_at ≤ a.created_at)

instance : DecidableRel listBefore := fun a b => by
  unfold listBefore; exact inferInstance

instance : IsTotal TaskList listBefore := ⟨by
  intro a b
  unfold listBefore
  omega⟩

instance : IsTrans TaskList listBefore := ⟨by
  intro a b c hab hbc
  unfold listBefore at hab hbc ⊢
  omega⟩

/-- DashboardController.index list query: the rows of the caller sorted by
`updated_at` descending then `created_at` descending (a stable sort embeds
the SQL ORDER BY). -/
def dashboardLists (authId : Nat) (db : List TaskList) : List TaskList :=
  List.insertionSort listBefore (db.filter (fun l => l.user_id == authId))

/-- Same ordering on task rows. -/
def taskBefore (a b : Task) : Prop :=
  b.updated_at < a.updated_at ∨ (a.updated_at = b.updated_at ∧ b.created_at ≤ a.created_at)

instance : DecidableRel taskBefore := fun a b => by
  unfold taskBefore; exact inferInstance

instance : IsTotal Task taskBefore := ⟨by
  intro a b
  unfold taskBefore
  omega⟩

instance : IsTrans Task taskBefore := ⟨by
  intro a b c hab hbc
  unfold taskBefore at hab hbc ⊢
  omega⟩

/-- DashboardController.index task query: tasks whose list belongs to the
caller (`whereHas` on the list relation), sorted as above. -/
def dashboardTasks (authId : Nat) (db : List TaskList) (tdb : List Task) : List Task :=
  List.insertionSort taskBefore
    (tdb.filter (fun t => db.any (fun l => l.id == t.lists_id && l.user_id == authId)))

/-- The stats block of DashboardController.index. -/
structure DashStats where
  totalLists : Nat
  totalTasks : Nat
  completedTasks : Nat
  pendingTasks : Nat
deriving Repr, DecidableEq

/-- The client status filter values. -/
inductive Status where
  | all
  | completed
  | pending
deriving Repr, DecidableEq

/-- Collection filter on completion status, as in the stats block:
`where(is_completed, true)` and `where(is_completed, false)`; `all` applies
no constraint. -/
def tasksMatching (s : Status) (ts : List Task) : List Task :=
  match s with
  | .all => ts
  | .completed => ts.filter (fun t => t.is_completed == true)
  | .pending => ts.filter (fun t => t.is_completed == false)

/-- DashboardController.index stats: counts over the fetched collections. -/
def dashboardStats (ls : List TaskList) (ts : List Task) : DashStats :=
  { totalLists := ls.length
  , totalTasks := ts.length
  , completedTasks := (tasksMatching .completed ts).length
  , pendingTasks := (tasksMatching .pending ts).length }

/-! ## Client: Lists page (ListsIndex component) -/

/-- The useForm buffer of the Lists page. -/
structure ListForm where
  title : String
  description : String
deriving Repr, DecidableEq

/-- Initial (empty) Lists form, the value `listForm.reset()` restores. -/
def emptyListForm : ListForm := { title := "", description := "" }

/-- Local state of the Lists page relevant to the CRUD dialog. -/
structure ListsPageState where
  isDialogOpen : Bool
  editingList : Option TaskList
  form : ListForm
deriving Repr, DecidableEq

/-- `closeDialogAndResetForm`: hide the dialog, reset the form buffer, drop
the edit target. -/
def closeDialogAndResetForm (s : ListsPageState) : ListsPageState :=
  { s with isDialogOpen := false, form := emptyListForm, editingList := none }

/-- `handleDialogOpenChange` of the Lists page: on close it also resets the
form and the edit target. -/
def handleDialogOpenChange (op : Bool) (s : ListsPageState) : ListsPageState :=
  let s1 := { s with isDialogOpen := op }
  if !op then closeDialogAndResetForm s1 else s1

/-- `handleEditList`: snapshot the editable fields into the form and open. -/
def handleEditList (l : TaskList) (s : ListsPageState) : ListsPageState :=
  { s with editingList := some l,
           form := { title := l.title, description := l.description.getD "" },
           isDialogOpen := true }

/-- The ListDialog submit button: `disabled := isProcessing`. -/
structure SubmitButton where
  disabled : Bool
  label : String
deriving Repr, DecidableEq

/-- Render of the ListDialog submit control. -/
def listSubmitButton (isProcessing : Bool) (isEditing : Bool) : SubmitButton :=
  { disabled := isProcessing
  , label := if isProcessing then "Processing..."
             else if isEditing then "Update List" else "Create List" }

/-! ## Client: Tasks page (Tasksindex component) -/

/-- The useForm buffer of the Tasks page. -/
structure TaskForm where
  title : String
  description : String
  due_date : String
  lists_id : String
  is_completed : Bool
deriving Repr, DecidableEq

/-- Initial (empty) Tasks form. -/
def emptyTaskForm : TaskForm :=
  { title := "", description := "", due_date := "", lists_id := "", is_completed := false }

/-- Local state of the Tasks page relevant to the CRUD dialog. -/
structure TasksPageState where
  isOpen : Bool
  editingTask : Option Task
  form : TaskForm
deriving Repr, DecidableEq

/-- The Tasks page wires `onOpenChange := setIsOpen`: open/close toggles the
flag and touches nothing else. -/
def tasksDialogOpenChange (op : Bool) (s : TasksPageState) : TasksPageState :=
  { s with isOpen := op }

/-- `handleEdit` of the Tasks page: snapshot the task into the form, open. -/
def tasksHandleEdit (t : Task) (s : TasksPageState) : TasksPageState :=
  { s with editingTask := some t,
           form := { title := t.title
                   , description := t.description.getD ""
                   , due_date := t.due_date.getD ""
                   , lists_id := toString t.lists_id
                   , is_completed := t.is_completed },
           isOpen := true }

/-- Render of the Tasks page submit control: `disabled := processing`. -/
def tasksSubmitButton (processing : Bool) (editingTask : Option Task) : SubmitButton :=
  { disabled := processing
  , label := if editingTask.isSome then "Update" else "Create" }

/-! ## Client: dialog lifecycle machine

The dialog-relevant state of the Lists page together with the Inertia form
`processing` flag, driven by the user and server events that the page
handlers install. A submit click on a disabled control is ignored (the
button carries `disabled := processing`); `inFlight` counts mutations
issued but not yet answered. -/

structure DialogMachine where
  isOpen : Bool
  editing : Option TaskList
  form : ListForm
  processing : Bool
  inFlight : Nat
deriving Repr, DecidableEq

def initDialog : DialogMachine :=
  { isOpen := false, editing := none, form := emptyListForm, processing := false, inFlight := 0 }

inductive DialogEvent where
  | openCreate
  | openEdit (l : TaskList)
  | close
  | submit
  | respond (ok : Bool)
deriving Repr, DecidableEq

/-- The submit control of the machine: `disabled := processing`. -/
def submitDisabled (s : DialogMachine) : Bool := s.processing

def dialogStep (s : DialogMachine) (e : DialogEvent) : DialogMachine :=
  match e with
  | .openCreate => { s with isOpen := true }
  | .openEdit l =>
      { s with isOpen := true, editing := some l,
               form := { title := l.title, description := l.description.getD "" } }
  | .close =>
      { s with isOpen := false, editing := none, form := emptyListForm }
  | .submit =>
      if s.isOpen && !(submitDisabled s) then
        { s with processing := true, inFlight := s.inFlight + 1 }
      else s
  | .respond ok =>
      if s.processing then
        if ok then
          { s with processing := false, inFlight := s.inFlight - 1,
                   isOpen := false, editing := none, form := emptyListForm }
        else { s with processing := false, inFlight := s.inFlight - 1 }
      else s

/-- Run the machine from the initial state over an event trace. -/
def runDialog (evs : List DialogEvent) : DialogMachine :=
  evs.foldl dialogStep initDialog

/-! ## Client: flash-to-toast channel -/

/-- Toast display state as held by either page. -/
structure ToastView where
  showToast : Bool
  message : String
  isSuccess : Bool
deriving Repr, DecidableEq

/-- JavaScript truthiness of an optional string prop: absent or empty is
falsy. -/
def truthy : Option String → Bool
  | none => false
  | some s => !(s == "")

/-- The flash effect of both pages: `if (flash.success) show success toast
else if (flash.error) show error toast`. -/
def flashEffect (succ err : Option String) (prev : ToastView) : ToastView :=
  if truthy succ then { showToast := true, message := succ.getD "", isSuccess := true }
  else if truthy err then { showToast := true, message := err.getD "", isSuccess := false }
  else prev

/-- World state of a mounted page with its toast and the auto-hide effect.
`timer` holds the deadline of the pending `setTimeout`, when one exists;
`now` is the current clock. -/
structure ToastWorld where
  mounted : Bool
  toast : ToastView
  timer : Option Nat
  now : Nat
deriving Repr, DecidableEq

/-- External happenings the toast effects react to. -/
inductive ToastEvent where
  | flash (msg : String) (isSuccess : Bool)
  | advance (d : Nat)
  | unmount
deriving Repr, DecidableEq

/-- One step of the page with respect to its two toast effects. A flash on a
mounted page sets the message and makes the toast visible; the auto-hide
effect has dependency `[showToast]`, so it (re)schedules a 3000 ms timer
exactly when visibility turns from false to true, and leaves a running timer
alone when a newer message arrives while the toast is already visible. Time
advancing past the deadline fires the timer, hiding the toast. Unmount runs
the effect cleanup, which clears any pending timer. -/
def toastStep (s : ToastWorld) (e : ToastEvent) : ToastWorld :=
  match e with
  | .flash msg ok =>
      if s.mounted then
        if s.toast.showToast then
          { s with toast := { showToast := true, message := msg, isSuccess := ok } }
        else
          { s with toast := { showToast := true, message := msg, isSuccess := ok },
                   timer := some (s.now + 3000) }
      else s
  | .advance d =>
      match s.timer with
      | some dl =>
          if dl ≤ s.now + d then
            { s with now := s.now + d, timer := none,
                     toast := { s.toast with showToast := false } }
          else { s with now := s.now + d }
      | none => { s with now := s.now + d }
  | .unmount => { s with mounted := false, timer := none }

/-! ## Client: search / filter / pagination controller (Tasks page) -/

/-- Query-string payload of a `router.get` call on the Tasks page; a `none`
component is omitted from the request. -/
structure TasksQuery where
  page : Option Nat
  search : Option String
  filter : Option Status
deriving Repr, DecidableEq

/-- A visit issued by the Tasks page with its Inertia options. -/
structure ListRequest where
  params : TasksQuery
  preserveState : Bool
  preserveScroll : Bool
deriving Repr, DecidableEq

/-- Local state of the search/filter/pagination controller: the search input
value, the selected status filter, and the current page of the displayed
envelope. -/
structure TasksCtl where
  searchTerm : String
  completionFilter : Status
  currentPage : Nat
deriving Repr, DecidableEq

/-- `handleSearch`: submit issues `router.get(/tasks, { search, filter },
{ preserveState, preserveScroll })` — no page component. -/
def handleSearch (c : TasksCtl) : ListRequest :=
  { params := { page := none, search := some c.searchTerm, filter := some c.completionFilter }
  , preserveState := true
  , preserveScroll := true }

/-- `handleFilterChange`: store the new value and issue
`router.get(/tasks, { search, filter := value }, ...)` — no page component. -/
def handleFilterChange (c : TasksCtl) (value : Status) : TasksCtl × ListRequest :=
  ({ c with completionFilter := value },
   { params := { page := none, search := some c.searchTerm, filter := some value }
   , preserveState := true
   , preserveScroll := true })

/-- `handlePageChange`: issue `router.get(/tasks, { page, search, filter },
...)` with all three components. -/
def handlePageChange (c : TasksCtl) (page : Nat) : ListRequest :=
  { params := { page := some page, search := some c.searchTerm, filter := some c.completionFilter }
  , preserveState := true
  , preserveScroll := true }

/-! ## Concrete rows used by counterexamples and witnesses -/

/-- A list owned by user 1. -/
def demoList1 : TaskList :=
  { id := 1, title := "Groceries", description := none,
    user_id := 1, created_at := 5, updated_at := 5 }

/-- The row POST /lists creates for user 1 from title Bread at time 9 with
fresh id 2. -/
def demoList2 : TaskList :=
  { id := 2, title := "Bread", description := none,
    user_id := 1, created_at := 9, updated_at := 9 }

/-- A task of list 1. -/
def demoTask : Task :=
  { id := 1, title := "Buy milk", description := none, is_completed := false,
    due_date := none, lists_id := 1, created_at := 3, updated_at := 3 }

/-! ## Helper lemmas -/

lemma length_filter_add_length_filter_not {α : Type} (p : α → Bool) (l : List α) :
    (l.filter p).length + (l.filter (fun a => !(p a))).length = l.length := by
  induction l with
  | nil => rfl
  | cons a l ih =>
    cases h : p a <;> simp [List.filter_cons, h] <;> omega

lemma completed_pending_length (ts : List Task) :
    (ts.filter (fun t => t.is_completed == true)).length
      + (ts.filter (fun t => t.is_completed == false)).length = ts.length := by
  have hq : ∀ t : Task, (t.is_completed == false) = !(t.is_completed == true) := by
    intro t; cases t.is_completed <;> rfl
  rw [List.filter_congr (fun t _ => hq t)]
  exact length_filter_add_length_filter_not (fun t => t.is_completed == true) ts

lemma dialogStep_invariant (s : DialogMachine) (e : DialogEvent)
    (h : s.inFlight = if s.processing then 1 else 0) :
    (dialogStep s e).inFlight = if (dialogStep s e).processing then 1 else 0 := by
  cases e <;> simp [dialogStep, submitDisabled] <;> split_ifs <;> simp_all

lemma runDialog_invariant (evs : List DialogEvent) (s : DialogMachine)
    (h : s.inFlight = if s.processing then 1 else 0) :
    (evs.foldl dialogStep s).inFlight
      = if (evs.foldl dialogStep s).processing then 1 else 0 := by
  induction evs generalizing s with
  | nil => exact h
  | cons e evs ih => exact ih (dialogStep s e) (dialogStep_invariant s e h)

/-! ## Claims -/

/-- C4: the tasks matching status completed and the tasks matching status
pending are disjoint, together they are exactly the tasks matching status
all, and the completed count plus the pending count equals the total count
in the dashboard stats. -/
theorem C4_status_partition (ls : List TaskList) (ts : List Task) :
    (tasksMatching .completed ts).length + (tasksMatching .pending ts).length
      = (tasksMatching .all ts).length
    ∧ (∀ t, ¬ (t ∈ tasksMatching .completed ts ∧ t ∈ tasksMatching .pending ts))
    ∧ (∀ t, t ∈ tasksMatching .all ts ↔
        (t ∈ tasksMatching .completed ts ∨ t ∈ tasksMatching .pending ts))
    ∧ (dashboardStats ls ts).completedTasks + (dashboardStats ls ts).pendingTasks
      = (dashboardStats ls ts).totalTasks := by
  refine ⟨completed_pending_length ts, ?_, ?_, ?_⟩
  · intro t
    simp only [tasksMatching, List.mem_filter, beq_iff_eq]
    rintro ⟨⟨-, hc⟩, ⟨-, hp⟩⟩
    rw [hc] at hp
    cases hp
  · intro t
    simp only [tasksMatching, List.mem_filter, beq_iff_eq]
    cases h : t.is_completed <;> simp [h]
  · simpa [dashboardStats, tasksMatching] using completed_pending_length ts

/-- C6: the submit control of both dialogs renders with
`disabled := processing`, so it is disabled exactly while a mutation is in
flight; consequently on every event trace of a dialog instance the number of
in-flight mutations never exceeds one. -/
theorem C6_submit_exclusive :
    (∀ p e, (tasksSubmitButton p e).disabled = p)
    ∧ (∀ p b, (listSubmitButton p b).disabled = p)
    ∧ (∀ s : DialogMachine, submitDisabled s = s.processing)
    ∧ (∀ evs : List DialogEvent, (runDialog evs).inFlight ≤ 1) := by
  refine ⟨fun p e => rfl, fun p b => rfl, fun s => rfl, fun evs => ?_⟩
  have h := runDialog_invariant evs initDialog (by simp [initDialog])
  unfold runDialog
  split_ifs at h <;> omega

/-- C10: when a rendered response carries both a success and an error flash
message, the flash effect of either page shows a success toast with the
success text; the error text is not surfaced. -/
theorem C10_flash_success_precedence (s e : String) (prev : ToastView)
    (hs : s ≠ "") :
    flashEffect (some s) (some e) prev
      = { showToast := true, message := s, isSuccess := true } := by
  simp [flashEffect, truthy, hs]

theorem C10_flash_success_precedence_witness :
    flashEffect (some "List Created Successfully") (some "Something went wrong")
        { showToast := false, message := "", isSuccess := true }
      = { showToast := true, message := "List Created Successfully", isSuccess := true } :=
  C10_flash_success_precedence "List Created Successfully" "Something went wrong"
    { showToast := false, message := "", isSuccess := true } (by decide)

/-- C1: the code enforces owner scoping on the read path only. User 2
fetching lists sees nothing of user 1, yet DELETE /lists/1 by user 2
deletes the list of user 1 and reports success, and PUT /lists/1 by user 2
rewrites it (even reassigning `user_id` to the caller) — not the NotFound
with unchanged store that the claim requires. -/
theorem C1_ownership_not_enforced :
    ListController.index 2 [demoList1] = []
    ∧ ListController.destroy 2 1 [demoList1]
      = (.success "List Deleted Successfully", [])
    ∧ ListController.update 2 1 { title := some "Hijacked", description := none } 9 [demoList1]
      = (.success "List updated successfully",
         [{ id := 1, title := "Hijacked", description := none, user_id := 2,
            created_at := 5, updated_at := 9 }]) := by
  refine ⟨rfl, by decide, by decide⟩

/-- C3 counterexample: user 1 owns one list (updated at 5) and then creates
list Bread at time 9; GET /lists returns the old list first and the freshly
created, most-recently-updated list last, because the query has no ordering
clause. -/
theorem C3_counterexample :
    (ListController.store 1 { title := some "Bread", description := none } 9 2 [demoList1]).fst
      = .success "List Created Successfully"
    ∧ ListController.index 1
        (ListController.store 1 { title := some "Bread", description := none } 9 2 [demoList1]).snd
      = [demoList1, demoList2]
    ∧ demoList1.updated_at < demoList2.updated_at := by
  refine ⟨by decide, by decide, by decide⟩

/-- C3 amended: the Dashboard list query is sorted by `updated_at`
descending with `created_at` descending as tie-break, while GET /lists
returns the rows of the owner in storage order (a sublist of the stored
sequence, no reordering). -/
theorem C3_listing_order (uid : Nat) (db : List TaskList) :
    List.Sorted listBefore (dashboardLists uid db)
    ∧ List.Sublist (ListController.index uid db) db :=
  ⟨List.sorted_insertionSort listBefore _, List.filter_sublist _⟩

/-- C5 counterexample: in the Tasks page, after opening the dialog on a task
and closing it, the edit-target snapshot and the form buffer survive; the
next opened dialog starts from the stale task, not from empty defaults. -/
theorem C5_counterexample :
    (tasksDialogOpenChange false (tasksHandleEdit demoTask
        { isOpen := false, editingTask := none, form := emptyTaskForm })).isOpen = false
    ∧ (tasksDialogOpenChange false (tasksHandleEdit demoTask
        { isOpen := false, editingTask := none, form := emptyTaskForm })).editingTask
      = some demoTask
    ∧ (tasksDialogOpenChange false (tasksHandleEdit demoTask
        { isOpen := false, editingTask := none, form := emptyTaskForm })).form
      ≠ emptyTaskForm
    ∧ (tasksDialogOpenChange true (tasksDialogOpenChange false (tasksHandleEdit demoTask
        { isOpen := false, editingTask := none, form := emptyTaskForm }))).form.title
      = "Buy milk" := by
  refine ⟨rfl, rfl, by decide, rfl⟩

/-- C5 amended: closing the Lists dialog from any state returns it to Idle
with the edit target cleared and the form reset to empty defaults; closing
the Tasks dialog only hides it and retains both the edit-target snapshot
and the form buffer. -/
theorem C5_dialog_close (s : ListsPageState) (s2 : TasksPageState) :
    handleDialogOpenChange false s
      = { isDialogOpen := false, editingList := none, form := emptyListForm }
    ∧ (tasksDialogOpenChange false s2).isOpen = false
    ∧ (tasksDialogOpenChange false s2).editingTask = s2.editingTask
    ∧ (tasksDialogOpenChange false s2).form = s2.form :=
  ⟨rfl, rfl, rfl, rfl⟩

/-- C8 counterexample: with the displayed envelope on page 3, a search
submit and a filter selection both issue requests whose query carries no
page component at all — not the full current triple. -/
theorem C8_counterexample :
    (handleSearch { searchTerm := "milk", completionFilter := .pending, currentPage := 3 }).params.page
      = none
    ∧ (handleSearch { searchTerm := "milk", completionFilter := .pending, currentPage := 3 }).params.page
      ≠ some 3
    ∧ (handleFilterChange { searchTerm := "milk", completionFilter := .pending, currentPage := 3 }
        Status.completed).snd.params.page = none := by
  refine ⟨rfl, by decide, rfl⟩

/-- C8 amended: a search submit or a status selection issues a request
carrying the current search text and status but no page component (so the
server falls back to its first page), while page navigation carries all of
page, search and status; every such request preserves component state and
scroll position. -/
theorem C8_request_payloads (c : TasksCtl) (v : Status) (p : Nat) :
    handleSearch c
      = { params := { page := none, search := some c.searchTerm,
                      filter := some c.completionFilter },
          preserveState := true, preserveScroll := true }
    ∧ handleFilterChange c v
      = ({ c with completionFilter := v },
         { params := { page := none, search := some c.searchTerm, filter := some v },
           preserveState := true, preserveScroll := true })
    ∧ handlePageChange c p
      = { params := { page := some p, search := some c.searchTerm,
                      filter := some c.completionFilter },
          preserveState := true, preserveScroll := true } :=
  ⟨rfl, rfl, rfl⟩

/-- C2 counterexample: a successful update by caller 2 of list 1 (owned by
user 1) changes `user_id` from 1 to 2 — the update writes
`user_id := Auth::id()`, so a successful update does not always leave the
owner field unchanged. -/
theorem C2_counterexample :
    (ListController.update 2 1 { title := some "Groceries", description := none } 9 [demoList1]).fst
      = .success "List updated successfully"
    ∧ demoList1.user_id = 1
    ∧ ((ListController.update 2 1 { title := some "Groceries", description := none } 9
        [demoList1]).snd.map (fun l => l.user_id)) = [2] := by
  refine ⟨by decide, rfl, by decide⟩

/-- C2 amended: a successful update leaves every row with a different id
unchanged and preserves the id and `created_at` of the target; it writes
title, description, `updated_at`, and sets `user_id` to the caller identity,
which leaves `user_id` unchanged exactly when the caller already owns the
target; no other stored entity is modified. -/
theorem C2_update_frame (auth listId now : Nat) (inp : ListInput)
    (db : List TaskList) (msg : String) (db2 : List TaskList)
    (h : ListController.update auth listId inp now db = (.success msg, db2)) :
    db2.length = db.length
    ∧ ∀ i (hi : i < db.length) (hi2 : i < db2.length),
        ((db.get ⟨i, hi⟩).id ≠ listId → db2.get ⟨i, hi2⟩ = db.get ⟨i, hi⟩)
        ∧ (db2.get ⟨i, hi2⟩).id = (db.get ⟨i, hi⟩).id
        ∧ (db2.get ⟨i, hi2⟩).created_at = (db.get ⟨i, hi⟩).created_at
        ∧ ((db.get ⟨i, hi⟩).id = listId →
            (db2.get ⟨i, hi2⟩).user_id = auth ∧ (db2.get ⟨i, hi2⟩).updated_at = now)
        ∧ ((db.get ⟨i, hi⟩).id = listId ∧ (db.get ⟨i, hi⟩).user_id = auth →
            (db2.get ⟨i, hi2⟩).user_id = (db.get ⟨i, hi⟩).user_id) := by
  unfold ListController.update at h
  cases hf : ListController.findById db listId with
  | none => rw [hf] at h; simp at h
  | some l0 =>
    rw [hf] at h
    cases hv : validateListInput inp with
    | error errs => rw [hv] at h; simp at h
    | ok v =>
      rw [hv] at h
      rw [Prod.mk.injEq] at h
      obtain ⟨h1, h2⟩ := h
      subst h2
      refine ⟨by simp, ?_⟩
      intro i hi hi2
      simp only [List.get_eq_getElem, List.getElem_map]
      by_cases hx : (db[i]).id = listId
      · refine ⟨fun hne => absurd hx hne, ?_, ?_, ?_, ?_⟩ <;> simp [hx]
        intro hown
        simp [hown]
      · simp [hx]

theorem C2_update_frame_witness :
    (ListController.update 1 1 { title := some "Weekly", description := none } 9 [demoList1]).snd.length
      = [demoList1].length :=
  (C2_update_frame 1 1 9 { title := some "Weekly", description := none } [demoList1]
      "List updated successfully"
      (ListController.update 1 1 { title := some "Weekly", description := none } 9 [demoList1]).snd
      (by decide)).1

/-- C7: on a mounted page with no toast visible, a flash makes the toast
visible and starts a 3000 ms timer; with no intervening event the timer
fires exactly 3000 ms later and hides the toast; unmounting first cancels
the timer, after which no advance of the clock ever changes the toast — the
torn-down timer never acts on stale state. -/
theorem C7_toast_lifecycle (s : ToastWorld) (msg : String) (ok : Bool)
    (hm : s.mounted = true) (hs : s.toast.showToast = false) :
    (toastStep s (.flash msg ok)).timer = some (s.now + 3000)
    ∧ (toastStep s (.flash msg ok)).toast.showToast = true
    ∧ (toastStep s (.flash msg ok)).toast.message = msg
    ∧ (toastStep (toastStep s (.flash msg ok)) (.advance 3000)).toast.showToast = false
    ∧ (toastStep (toastStep s (.flash msg ok)) (.advance 3000)).now = s.now + 3000
    ∧ (toastStep (toastStep s (.flash msg ok)) .unmount).timer = none
    ∧ ∀ d, (toastStep (toastStep (toastStep s (.flash msg ok)) .unmount) (.advance d)).toast
        = (toastStep (toastStep s (.flash msg ok)) .unmount).toast := by
  simp [toastStep, hm, hs]

/-- A fresh page world for the toast witness. -/
def demoWorld : ToastWorld :=
  { mounted := true, toast := { showToast := false, message := "", isSuccess := true },
    timer := none, now := 0 }

theorem C7_toast_lifecycle_witness :
    (toastStep demoWorld (.flash "List Created Successfully" true)).timer = some 3000 :=
  (C7_toast_lifecycle demoWorld "List Created Successfully" true rfl rfl).1

/-- C9: POST /lists succeeds exactly when the title is present, non-empty
and of at most 255 characters; on failure the store is unchanged and a
per-field error names the title field; on success the new row is appended
owned by the caller and the outcome carries exactly the one success flash. -/
theorem C9_store_contract (auth now nextId : Nat) (inp : ListInput) (db : List TaskList) :
    ((ListController.store auth inp now nextId db).fst.isSuccess = true
      ↔ ∃ t, inp.title = some t ∧ t ≠ "" ∧ t.length ≤ 255)
    ∧ ((ListController.store auth inp now nextId db).fst.isSuccess = false
        → (ListController.store auth inp now nextId db).snd = db
          ∧ ∃ errs e, (ListController.store auth inp now nextId db).fst = .validationError errs
              ∧ ("title", e) ∈ errs)
    ∧ ((ListController.store auth inp now nextId db).fst.isSuccess = true
        → ∃ t, inp.title = some t
            ∧ (ListController.store auth inp now nextId db).snd
              = db ++ [{ id := nextId, title := t, description := inp.description,
                         user_id := auth, created_at := now, updated_at := now }]
            ∧ (ListController.store auth inp now nextId db).fst.flash?
              = some "List Created Successfully") := by
  obtain ⟨t?, d?⟩ := inp
  cases t? with
  | none =>
    simp [ListController.store, validateListInput, StoreResult.isSuccess, StoreResult.flash?]
  | some s =>
    by_cases hs : s = ""
    · subst hs
      simp [ListController.store, validateListInput, StoreResult.isSuccess, StoreResult.flash?]
    · by_cases hl : 255 < s.length
      · simp [ListController.store, validateListInput, hs, hl,
          StoreResult.isSuccess, StoreResult.flash?]
      · simp [ListController.store, validateListInput, hs, hl,
          StoreResult.isSuccess, StoreResult.flash?]
        omega

theorem C9_store_contract_witness :
    ∃ t, ({ title := some "Groceries", description := none } : ListInput).title = some t
      ∧ (ListController.store 1 { title := some "Groceries", description := none } 5 1 []).snd
        = [] ++ [{ id := 1, title := t, description := none, user_id := 1,
                   created_at := 5, updated_at := 5 }]
      ∧ (ListController.store 1 { title := some "Groceries", description := none } 5 1 []).fst.flash?
        = some "List Created Successfully" :=
  (C9_store_contract 1 5 1 { title := some "Groceries", description := none } []).2.2 (by decide)

end TaskManager
